import Mathlib

/-!
Shallow embedding of the data-access service in `src/backend/data_service.py` and
`src/backend/realtime_service.py`.

Modelling conventions:
* Python dicts holding the JSON response envelope become Lean structures
  (`Envelope` for the historical envelope, `RtEnvelope` for the realtime ones;
  fields that a given Python code path does not put into the dict are `Option`
  fields set to `none`).
* Python floats become `ℚ`; float formatting/IEEE artefacts are not modelled.
  `round(x, 2)` is modelled as `round2` (floor of `x*100 + 1/2` divided by 100;
  the tie-breaking detail of Python's banker rounding is abstracted).
* Dates and timestamps: a `YYYY-MM-DD` date string is its day number (an `Int`),
  a `datetime` instant is its second count (an `Int`); `strftime('%Y-%m-%d')`
  is `dayOf`, i.e. floor division by 86400, matching Python's `//`.
* The upstream `akshare` provider is a parameter of each operation: a value of
  type `Except String α` whose `.error` case models the provider call raising an
  exception (caught by the source's `try/except`), and whose payload models the
  already-renamed DataFrame (`RawFrame`): per-cell coercion failures
  (`pd.to_numeric(errors='coerce')` producing NaN) are `Option` fields.
* The on-disk JSON cache is an association list keyed by the tuple that the
  source hashes (md5 of `symbol_start_end_type`; the hash is injective on the
  key tuple for the purposes of this model, so the tuple itself is the key);
  the file mtime is `CacheEntry.mtime` and an unreadable/undecodable file is
  `CacheEntry.content = none`.  OS-level I/O errors are modelled by the
  `ioFail` flag passed to `DataCache.get` / `DataCache.set`, which makes the
  whole call take the source's `except` branch.
* Process clock: `now : Int` (seconds) is passed explicitly.
-/

/-- First-match association-list lookup (models Python dict access / file lookup). -/
def alookup {α β : Type} [DecidableEq α] (k : α) : List (α × β) → Option β
  | [] => none
  | (k', v) :: rest => if k' = k then some v else alookup k rest

/-- Remove every binding of key `k` (models deleting the single cache file of `k`). -/
def aerase {α β : Type} [DecidableEq α] (k : α) : List (α × β) → List (α × β)
  | [] => []
  | (k', v) :: rest => if k' = k then aerase k rest else (k', v) :: aerase k rest

/-- Day number of a second-count instant; Python `datetime.strftime('%Y-%m-%d')`
composed with date parsing, and Python floor division `// 86400`. -/
def dayOf (t : Int) : Int := t / 86400

/-- Python `round(x, 2)` (tie behaviour abstracted to round-half-up). -/
def round2 (q : ℚ) : ℚ := (⌊q * 100 + 1 / 2⌋ : ℚ) / 100

/-- Python `int(x)` on a float: truncation toward zero. -/
def pyTrunc (q : ℚ) : Int := if q < 0 then -⌊-q⌋ else ⌊q⌋

/-- Character-list version of Python `str.startswith`. -/
def charsBegins : List Char → List Char → Bool
  | [], _ => true
  | _, [] => false
  | a :: as, b :: bs => a == b && charsBegins as bs

/-- Python `symbol.startswith(p)`. -/
def strBegins (s p : String) : Bool := charsBegins p.data s.data

/-- Python `symbol.isdigit()` restricted to ASCII digits (the source is only ever
called with ASCII symbol strings; Python additionally accepts non-ASCII digit
characters, which is outside this model). -/
def strIsDigits (s : String) : Bool := s.data.all Char.isDigit

/-- One OHLCV bar of the `data` list of the historical envelope. -/
structure Bar where
  date : Int
  open_ : ℚ
  close : ℚ
  high : ℚ
  low : ℚ
  volume : Int
deriving DecidableEq

/-- The `summary` object of the historical envelope. -/
structure Summary where
  changePercent : ℚ
  maxPrice : ℚ
  minPrice : ℚ
  avgVolume : Int
deriving DecidableEq

/-- The historical response envelope (`lastUpdate`/`period` timestamps carry no
verifiable content and are omitted). -/
structure Envelope where
  success : Bool
  code : String
  name : String
  type_ : String
  currentPrice : ℚ
  data : List Bar
  summary : Summary
  dataCount : Nat
  error : Option String
deriving DecidableEq

/-- `INDEX_CODE_MAPPING` of data_service.py: supported index codes and display
names (the `ak_symbol` field only feeds the provider call and is dropped). -/
def INDEX_CODE_MAPPING : List (String × String) :=
  [("000001.SH", "上证指数"), ("399001.SZ", "深证成指"), ("399006.SZ", "创业板指"),
   ("399005.SZ", "中小板指"), ("000300.SH", "沪深300"), ("000905.SH", "中证500"),
   ("000852.SH", "中证1000")]

/-- Python `symbol in INDEX_CODE_MAPPING`. -/
def isIndexCode (s : String) : Bool := (alookup s INDEX_CODE_MAPPING).isSome

/-- Python `INDEX_CODE_MAPPING[symbol]['name']`. -/
def indexName (s : String) : String := (alookup s INDEX_CODE_MAPPING).getD ""

/-- `FinancialDataService._identify_symbol_type`. -/
def identify_symbol_type (symbol : String) : String :=
  if isIndexCode symbol = true then "index"
  else if symbol.length = 6 ∧ strIsDigits symbol = true ∧
      (strBegins symbol "00" = true ∨ strBegins symbol "30" = true ∨
       strBegins symbol "60" = true) then "stock"
  else "unknown"

/-- `FinancialDataService._create_empty_response`. -/
def create_empty_response (symbol symbolType message : String) : Envelope :=
  { success := false
    code := symbol
    name := (if symbolType = "index" then "指数" else "股票") ++ "_" ++ symbol
    type_ := symbolType
    currentPrice := 0
    data := []
    summary := { changePercent := 0, maxPrice := 0, minPrice := 0, avgVolume := 0 }
    dataCount := 0
    error := some message }

/-- One row of the provider DataFrame after column renaming; `none` cells model
NaN produced by `pd.to_numeric(errors='coerce')`. -/
structure RawRow where
  date : Int
  open_ : Option ℚ
  close : Option ℚ
  high : Option ℚ
  low : Option ℚ
  volume : Option Int
deriving DecidableEq

/-- The provider DataFrame after column renaming: rows plus which of the
required columns exist (a missing column means every row's cell is ignored). -/
structure RawFrame where
  rows : List RawRow
  hasDate : Bool
  hasOpen : Bool
  hasClose : Bool
  hasHigh : Bool
  hasLow : Bool
  hasVolume : Bool
deriving DecidableEq

/-- Row-to-bar conversion of `_normalize_data_format`: `float(row[c]) if
pd.notna(row[c]) else 0`; a missing volume column becomes `df['volume'] = 0`. -/
def toBar (hasVolume : Bool) (r : RawRow) : Bar :=
  { date := r.date
    open_ := r.open_.getD 0
    close := r.close.getD 0
    high := r.high.getD 0
    low := r.low.getD 0
    volume := if hasVolume then r.volume.getD 0 else 0 }

/-- Row-to-bar conversion of `_get_minute_data`, where every missing required
column is filled with the constant 0 instead of aborting. -/
def minuteToBar (df : RawFrame) (r : RawRow) : Bar :=
  { date := if df.hasDate then r.date else 0
    open_ := if df.hasOpen then r.open_.getD 0 else 0
    close := if df.hasClose then r.close.getD 0 else 0
    high := if df.hasHigh then r.high.getD 0 else 0
    low := if df.hasLow then r.low.getD 0 else 0
    volume := if df.hasVolume then r.volume.getD 0 else 0 }

/-- Insert a bar into a date-sorted list (helper of `sortBarsByDate`). -/
def insertByDate (b : Bar) : List Bar → List Bar
  | [] => [b]
  | c :: cs => if b.date ≤ c.date then b :: c :: cs else c :: insertByDate b cs

/-- `df.sort_values('date')` on the converted bar list (the source's sort is not
stable and neither does anything here depend on stability). -/
def sortBarsByDate (l : List Bar) : List Bar := l.foldr insertByDate []

/-- `data_list[-1]['close'] if data_list else 0`. -/
def lastClose (l : List Bar) : ℚ :=
  match l.getLast? with
  | some b => b.close
  | none => 0

/-- The list comprehension `[d['low'] for d in data_list if d['low'] > 0]`. -/
def posLows (l : List Bar) : List ℚ :=
  (l.filter fun d => decide (0 < d.low)).map fun d => d.low

/-- Python `min(lows)`: raises `ValueError` on an empty sequence (the `.error`
case), otherwise folds `min`. -/
def minPos (l : List ℚ) : Except String ℚ :=
  match l with
  | [] => Except.error "min() arg is an empty sequence"
  | x :: xs => Except.ok (xs.foldl min x)

/-- The summary-statistics block shared verbatim by `_normalize_data_format`,
`_get_minute_data`, `_get_weekly_data` and `_get_monthly_data`: change percent,
max price, min over strictly positive lows (`ValueError`, hence `.error`, if no
low is positive), truncated average volume.  The empty-list case is the
source's `else` branch producing the all-zero summary. -/
def summaryOf (l : List Bar) : Except String Summary :=
  match l with
  | [] => Except.ok { changePercent := 0, maxPrice := 0, minPrice := 0, avgVolume := 0 }
  | b :: bs =>
    let firstPrice := b.close
    let lastPrice := lastClose (b :: bs)
    let changePercent : ℚ :=
      if firstPrice ≠ 0 then (lastPrice - firstPrice) / firstPrice * 100 else 0
    let maxPrice := (bs.map fun d => d.high).foldl max b.high
    match minPos (posLows (b :: bs)) with
    | Except.error e => Except.error e
    | Except.ok minPrice =>
      Except.ok
        { changePercent := round2 changePercent
          maxPrice := round2 maxPrice
          minPrice := round2 minPrice
          avgVolume :=
            pyTrunc ((((b :: bs).map fun d => d.volume).sum : ℚ) / ((b :: bs).length : ℚ)) }

/-- The bar list that `_normalize_data_format` builds from the frame. -/
def barsOf (df : RawFrame) : List Bar :=
  sortBarsByDate (df.rows.map (toBar df.hasVolume))

/-- `FinancialDataService._normalize_data_format`.  The whole body is wrapped in
`try/except` in the source; the one reachable exception in this model is the
`ValueError` of `min()` (surfaced by `summaryOf`), which the `except` turns
into the empty response with a `数据处理错误` message. -/
def normalize_data_format (df : RawFrame) (symbol symbolType : String) : Envelope :=
  if df.rows.isEmpty then create_empty_response symbol symbolType "暂无数据"
  else if ¬(df.hasDate && df.hasOpen && df.hasClose && df.hasHigh && df.hasLow) = true then
    create_empty_response symbol symbolType "数据格式不完整，缺少列"
  else
    let dataList := barsOf df
    match summaryOf dataList with
    | Except.error e => create_empty_response symbol symbolType ("数据处理错误：" ++ e)
    | Except.ok summ =>
      { success := true
        code := symbol
        name := if symbolType = "index" ∧ isIndexCode symbol = true then indexName symbol
                else "股票_" ++ symbol
        type_ := symbolType
        currentPrice := lastClose dataList
        data := dataList
        summary := summ
        dataCount := dataList.length
        error := none }

/-- The minute-period membership test of `get_kline_data`. -/
def isMinutePeriod (p : String) : Bool :=
  p = "1min" || p = "5min" || p = "15min" || p = "30min" || p = "60min"

/-- `FinancialDataService._validate_date_range`.  `none` for a date models both
the empty/`None` argument and the unparseable-date `ValueError` branch, which
produce the same last-30-days fallback. -/
def validate_date_range (now : Int) (sd ed : Option Int) : Int × Int :=
  match sd, ed with
  | some s, some e =>
    let startDt0 := s * 86400
    let endDt0 := e * 86400
    let startDt1 := if endDt0 < startDt0 then endDt0 else startDt0
    let endDt1 := if endDt0 < startDt0 then startDt0 else endDt0
    let endDt2 := if now < endDt1 then now else endDt1
    let startDt2 := if 730 * 86400 < endDt2 - startDt1 then endDt2 - 730 * 86400 else startDt1
    (dayOf startDt2, dayOf endDt2)
  | _, _ => (dayOf (now - 30 * 86400), dayOf now)

/-- The date-defaulting block at the top of `get_kline_data`: a missing start
date resets BOTH dates (1 day back for minute periods, 365 days otherwise), and
only then a missing end date defaults to today. -/
def kline_default_dates (now : Int) (period : String) (sd ed : Option Int) : Int × Int :=
  match sd with
  | none =>
    if isMinutePeriod period = true then (dayOf (now - 86400), dayOf now)
    else (dayOf (now - 365 * 86400), dayOf now)
  | some s =>
    match ed with
    | none => (s, dayOf now)
    | some e => (s, e)

/-- The effective date range that a `kline` invocation hands to the provider,
per period: minute periods pass the defaulted dates verbatim to
`ak.stock_zh_a_hist_min_em`; daily/weekly/monthly (and the fallback branch) go
through `get_stock_data` / `get_index_data`, both of which first apply
`_validate_date_range` (the primary index API takes no range argument at all
and the result is filtered locally to this validated range; the fallback index
API receives it directly); an unknown symbol reaches no provider call at all
(`none`). -/
def kline_provider_range (now : Int) (symbol period : String) (sd ed : Option Int) :
    Option (Int × Int) :=
  let d := kline_default_dates now period sd ed
  if isMinutePeriod period = true then some d
  else if identify_symbol_type symbol = "stock" ∨ identify_symbol_type symbol = "index" then
    some (validate_date_range now (some d.1) (some d.2))
  else none

/-- `CACHE_EXPIRE_HOURS` of data_service.py. -/
def CACHE_EXPIRE_HOURS : Int := 1

/-- Cache key: the tuple `(symbol, start_date, end_date, data_type)` hashed by
`DataCache._get_cache_key` (dates as day numbers). -/
abbrev CacheKey := String × Int × Int × String

/-- One cache file: its mtime and its decoded content (`none` if the file is
unreadable or not valid JSON, so `json.load` raises inside the `try`). -/
structure CacheEntry where
  mtime : Int
  content : Option Envelope
deriving DecidableEq

/-- The cache directory. -/
abbrev CacheState := List (CacheKey × CacheEntry)

/-- `DataCache.get`: absent file or any swallowed exception gives `none`; a file
older than `CACHE_EXPIRE_HOURS` is deleted and reported absent; otherwise the
decoded envelope is returned.  `ioFail` models an OS error from any of the file
operations (caught by the blanket `except`, leaving the state unchanged). -/
def DataCache.get (ioFail : Bool) (st : CacheState) (now : Int) (k : CacheKey) :
    Option Envelope × CacheState :=
  if ioFail then (none, st)
  else
    match alookup k st with
    | none => (none, st)
    | some entry =>
      if CACHE_EXPIRE_HOURS * 3600 < now - entry.mtime then (none, aerase k st)
      else
        match entry.content with
        | some v => (some v, st)
        | none => (none, st)

/-- `DataCache.set`: writes the envelope with the current mtime, replacing the
file; any exception (`ioFail`) is swallowed, leaving the state unchanged. -/
def DataCache.set (ioFail : Bool) (st : CacheState) (now : Int) (k : CacheKey) (v : Envelope) :
    CacheState :=
  if ioFail then st else (k, { mtime := now, content := some v }) :: aerase k st

/-- Result of one historical service call: the returned envelope, the cache
directory afterwards, and whether a provider request was issued. -/
structure StockFetch where
  envelope : Envelope
  cache : CacheState
  providerCalled : Bool
deriving DecidableEq

/-- The cache-check / fetch / store-on-success skeleton shared verbatim by
`get_stock_data` and `_get_minute_data`: serve a cache hit as-is, otherwise
return the freshly computed envelope `res` (the whole provider + normalize
step, which the source runs only on a miss), writing it back only when
`result['success']` holds (the source's failure paths return before reaching
the `cache.set` call, which is equivalent since they carry `success=False`). -/
def cached_fetch (gFail sFail : Bool) (st : CacheState) (now : Int) (key : CacheKey)
    (res : Envelope) : StockFetch :=
  let g := DataCache.get gFail st now key
  match g.1 with
  | some v => { envelope := v, cache := g.2, providerCalled := false }
  | none =>
    { envelope := res
      cache := if res.success then DataCache.set sFail g.2 now key res else g.2
      providerCalled := true }

/-- The cache key of `get_stock_data`: the validated dates under type `stock`. -/
def stockKey (now : Int) (symbol : String) (sd ed : Option Int) : CacheKey :=
  (symbol, (validate_date_range now sd ed).1, (validate_date_range now sd ed).2, "stock")

/-- The cache key of `_get_minute_data`: the RAW dates under `minute_{period}`. -/
def minuteKey (symbol period : String) (sd ed : Int) : CacheKey :=
  (symbol, sd, ed, "minute_" ++ period)

/-- `FinancialDataService.get_stock_data`: validate the date range, consult the
disk cache, otherwise fetch `df` from the provider, normalize, and cache the
result only when `result['success']` holds. -/
def get_stock_data (gFail sFail : Bool) (st : CacheState) (now : Int) (df : RawFrame)
    (symbol : String) (sd ed : Option Int) : StockFetch :=
  cached_fetch gFail sFail st now (stockKey now symbol sd ed)
    (normalize_data_format df symbol "stock")

/-- The fresh-fetch part of `_get_minute_data`: provider exception or empty
frame give an empty response; otherwise fill missing columns with 0, sort,
build the data list and the summary (whose `min()` `ValueError` is caught by
the outer `except`, giving the empty response with the outer message). -/
def minute_fresh_result (provider : Except String RawFrame) (symbol : String) : Envelope :=
  match provider with
  | Except.error e => create_empty_response symbol "stock" ("获取分时数据失败：" ++ e)
  | Except.ok df =>
    if df.rows.isEmpty then create_empty_response symbol "stock" "暂无分时数据"
    else
      let dataList := sortBarsByDate (df.rows.map (minuteToBar df))
      match summaryOf dataList with
      | Except.error e => create_empty_response symbol "stock" ("获取分时数据失败：" ++ e)
      | Except.ok summ =>
        { success := true, code := symbol, name := "股票_" ++ symbol, type_ := "stock"
          currentPrice := lastClose dataList, data := dataList, summary := summ
          dataCount := dataList.length, error := none }

/-- `FinancialDataService._get_minute_data`: cache under `minute_{period}` with
the raw (unvalidated) dates, then the fresh fetch, caching on success. -/
def get_minute_data (gFail sFail : Bool) (st : CacheState) (now : Int)
    (provider : Except String RawFrame) (symbol period : String) (sd ed : Int) : StockFetch :=
  cached_fetch gFail sFail st now (minuteKey symbol period sd ed)
    (minute_fresh_result provider symbol)

/-- `FinancialDataService.get_financial_data`: dispatch on the classified
symbol type; the stock/index sub-calls are abstracted as parameters. -/
def get_financial_data (symbol : String) (stockRes indexRes : Envelope) : Envelope :=
  if identify_symbol_type symbol = "stock" then stockRes
  else if identify_symbol_type symbol = "index" then indexRes
  else create_empty_response symbol "unknown" ("无法识别的代码格式：" ++ symbol)

/-- The dispatch of `FinancialDataService.get_kline_data` (sub-calls abstracted
as parameters).  The source's `if/elif` chain has NO branch for an unknown
symbol type under the `daily` period or the default period branch: control
falls off the end of the `try` block and the Python function returns `None`,
modelled as `none`. -/
def get_kline_data (symbol period : String)
    (minuteRes weeklyRes monthlyRes stockRes indexRes : Envelope) : Option Envelope :=
  let symbolType := identify_symbol_type symbol
  if isMinutePeriod period = true then some minuteRes
  else if period = "daily" then
    if symbolType = "stock" then some stockRes
    else if symbolType = "index" then some indexRes
    else none
  else if period = "weekly" then some weeklyRes
  else if period = "monthly" then some monthlyRes
  else
    if symbolType = "stock" then some stockRes
    else if symbolType = "index" then some indexRes
    else none

/-- One row of the realtime spot DataFrame, fields as far as the services read
them (`none` models an absent column / NaN cell; the stock-quote path accesses
some of these unguarded, so a missing one raises there and is subsumed by the
provider's `.error` case). -/
structure RtRow where
  name : Option String
  current : Option ℚ
  change_percent : Option ℚ
  change_amount : Option ℚ
  high : Option ℚ
  low : Option ℚ
  open_ : Option ℚ
  yesterday_close : Option ℚ
  volume : Option Int
  turnover : Option ℚ
deriving DecidableEq

/-- One entry of the tick list of `get_realtime_tick_data`. -/
structure TickEntry where
  time : Int
  price : ℚ
  volume : Int
deriving DecidableEq

/-- The realtime response envelope: a dict whose key set differs per operation,
so every field except `success`/`code` is optional; `none` means the key is
absent from the produced dict (`update_time`/`market_status` carry no
verifiable content and are omitted). -/
structure RtEnvelope where
  success : Bool
  code : String
  name : Option String := none
  current : Option ℚ := none
  change_percent : Option ℚ := none
  change_amount : Option ℚ := none
  high : Option ℚ := none
  low : Option ℚ := none
  open_ : Option ℚ := none
  yesterday_close : Option ℚ := none
  volume : Option Int := none
  turnover : Option ℚ := none
  data : Option (List TickEntry) := none
  count : Option Nat := none
  error : Option String := none
deriving DecidableEq

/-- The in-memory realtime cache pair: the value dict (`self.cache` /
`self.realtime_cache`) and the timestamp dict (`self.last_update` /
`self.last_realtime_update`). -/
structure RtState where
  cache : List (String × RtEnvelope)
  last_update : List (String × Int)
deriving DecidableEq

/-- The realtime in-memory TTL, `self.cache_duration`. -/
def RT_CACHE_DURATION : Int := 60

/-- The in-memory cache check shared verbatim by every realtime verb: serve
the cached dict when BOTH `self.cache` and `self.last_update` hold the key and
the entry is younger than 60 seconds; otherwise run the fetch body (the source
runs it only on a miss). -/
def rt_cached (st : RtState) (now : Int) (key : String) (fetch : RtEnvelope × RtState) :
    RtEnvelope × RtState :=
  match alookup key st.cache, alookup key st.last_update with
  | some v, some t => if now - t < RT_CACHE_DURATION then (v, st) else fetch
  | some _, none => fetch
  | none, _ => fetch

/-- The fetch body of the stock realtime quote: provider exception (`.error`)
or symbol absent from the spot table (`.ok none`) give a failure dict carrying
no `data` key; a found row gives the success dict (also without `data`), which
is written into both cache dicts. -/
def rt_stock_fetch (st : RtState) (now : Int) (provider : Except String (Option RtRow))
    (symbol : String) : RtEnvelope × RtState :=
  match provider with
  | Except.error e =>
    ({ success := false, code := symbol, error := some ("获取实时数据失败：" ++ e) }, st)
  | Except.ok none =>
    ({ success := false, code := symbol, error := some "未找到该股票的实时数据" }, st)
  | Except.ok (some row) =>
    let res : RtEnvelope :=
      { success := true, code := symbol, name := row.name
        current := some (row.current.getD 0)
        change_percent := some (row.change_percent.getD 0)
        change_amount := some (row.change_amount.getD 0)
        high := some (row.high.getD 0), low := some (row.low.getD 0)
        open_ := some (row.open_.getD 0)
        yesterday_close := some (row.yesterday_close.getD 0)
        volume := some (row.volume.getD 0), turnover := some (row.turnover.getD 0)
        error := none }
    (res, { cache := ("realtime_" ++ symbol, res) :: st.cache
            last_update := ("realtime_" ++ symbol, now) :: st.last_update })

/-- The fetch body of the index realtime quote: first the supported-index
check, then the provider; only the success dict is cached; no dict carries a
`data` key. -/
def rt_index_fetch (st : RtState) (now : Int) (provider : Except String (Option RtRow))
    (symbol : String) : RtEnvelope × RtState :=
  if isIndexCode symbol = false then
    ({ success := false, code := symbol, error := some ("不支持的指数代码: " ++ symbol) }, st)
  else
    match provider with
    | Except.error e =>
      ({ success := false, code := symbol, error := some ("获取指数实时数据失败：" ++ e) }, st)
    | Except.ok none =>
      ({ success := false, code := symbol, error := some "未找到该指数的实时数据" }, st)
    | Except.ok (some row) =>
      let res : RtEnvelope :=
        { success := true, code := symbol, name := some (indexName symbol)
          current := some (row.current.getD 0)
          change_percent := some (row.change_percent.getD 0)
          change_amount := some (row.change_amount.getD 0)
          high := some (row.high.getD 0), low := some (row.low.getD 0)
          open_ := some (row.open_.getD 0)
          yesterday_close := some (row.yesterday_close.getD 0)
          volume := some (row.volume.getD 0), turnover := some (row.turnover.getD 0)
          error := none }
      (res, { cache := ("index_realtime_" ++ symbol, res) :: st.cache
              last_update := ("index_realtime_" ++ symbol, now) :: st.last_update })

/-- `FinancialDataService.get_realtime_data` (the stock realtime quote). -/
def get_realtime_data (st : RtState) (now : Int) (provider : Except String (Option RtRow))
    (symbol : String) : RtEnvelope × RtState :=
  rt_cached st now ("realtime_" ++ symbol) (rt_stock_fetch st now provider symbol)

/-- `RealtimeDataService.get_index_realtime_data` (duplicated verbatim as
`FinancialDataService.get_index_realtime_data`). -/
def get_index_realtime_data (st : RtState) (now : Int)
    (provider : Except String (Option RtRow)) (symbol : String) : RtEnvelope × RtState :=
  rt_cached st now ("index_realtime_" ++ symbol) (rt_index_fetch st now provider symbol)

/-- `get_realtime_tick_data`: no caching; provider exception or empty frame
give a failure dict that DOES carry `data: []`; otherwise the last `count` rows
become the tick list (`df.tail(count)`), with `count` in the reply set to its
length.  Rows are `(time, close, volume)` with NaN cells as `none`. -/
def get_realtime_tick_data (provider : Except String (List (Int × Option ℚ × Option Int)))
    (symbol : String) (count : Nat) : RtEnvelope :=
  match provider with
  | Except.error _ =>
    { success := false, code := symbol, error := some "分时数据暂不可用", data := some [] }
  | Except.ok rows =>
    if rows.isEmpty then
      { success := false, code := symbol, error := some "暂无分时数据", data := some [] }
    else
      let ticks := (rows.drop (rows.length - count)).map
        fun r => { time := r.1, price := r.2.1.getD 0, volume := r.2.2.getD 0 : TickEntry }
      { success := true, code := symbol, data := some ticks, count := some ticks.length }

/-- The envelope bookkeeping invariant `dataCount == len(data)`. -/
def EnvCountOk (e : Envelope) : Prop := e.dataCount = e.data.length

/-- A property holding of every decodable envelope stored in the disk cache. -/
def CacheInv (P : Envelope → Prop) (st : CacheState) : Prop :=
  ∀ k e, alookup k st = some e → ∀ v, e.content = some v → P v

/-- Every envelope stored in the in-memory realtime cache is a success one. -/
def RtInv (st : RtState) : Prop :=
  ∀ k v, alookup k st.cache = some v → v.success = true

/-- Concrete envelope used by witnesses as a placeholder sub-result. -/
def demoEnvelope : Envelope := create_empty_response "demo" "stock" "demo"

/-- Concrete cache key used by witnesses. -/
def demoKey : CacheKey := ("600000", 100, 200, "stock")

/-- Concrete undecodable cache entry used by witnesses. -/
def demoEntryBad : CacheEntry := { mtime := 0, content := none }

/-- Concrete one-file cache directory used by witnesses. -/
def demoStBad : CacheState := [(demoKey, demoEntryBad)]

/-- Concrete bar with a strictly positive low, used by witnesses. -/
def demoBar1 : Bar := { date := 0, open_ := 1, close := 2, high := 5, low := 3, volume := 10 }

/-- Concrete bar with a negative low, used by witnesses. -/
def demoBar2 : Bar := { date := 1, open_ := 1, close := 2, high := 6, low := -1, volume := 20 }

/-- Concrete bar list used by witnesses. -/
def demoBars : List Bar := [demoBar1, demoBar2]

/-- Concrete well-formed provider frame used by witnesses. -/
def demoFrame : RawFrame :=
  { rows := [{ date := 0, open_ := some 1, close := some 2, high := some 5, low := some 3,
               volume := some 10 }]
    hasDate := true, hasOpen := true, hasClose := true, hasHigh := true, hasLow := true
    hasVolume := true }

/-- Concrete empty realtime state used by witnesses. -/
def demoRtEmpty : RtState := { cache := [], last_update := [] }

theorem alookup_aerase_self {α β : Type} [DecidableEq α] (k : α) (l : List (α × β)) :
    alookup k (aerase k l) = none := by
  induction l with
  | nil => rfl
  | cons p rest ih =>
    obtain ⟨k', v⟩ := p
    by_cases h : k' = k
    · simp [aerase, h, ih]
    · simp [aerase, alookup, h, ih]

theorem alookup_aerase_ne {α β : Type} [DecidableEq α] {k k' : α} (l : List (α × β))
    (h : k' ≠ k) : alookup k' (aerase k l) = alookup k' l := by
  induction l with
  | nil => rfl
  | cons p rest ih =>
    obtain ⟨ka, v⟩ := p
    by_cases hk : ka = k
    · have hne : ¬ ka = k' := fun hh => h (hh.symm.trans hk)
      rw [show aerase k ((ka, v) :: rest) = aerase k rest from by simp [aerase, hk], ih]
      simp [alookup, hne]
    · rw [show aerase k ((ka, v) :: rest) = (ka, v) :: aerase k rest from by simp [aerase, hk]]
      by_cases hk' : ka = k'
      · simp [alookup, hk']
      · simp [alookup, hk', ih]

theorem alookup_aerase_some {α β : Type} [DecidableEq α] {k k' : α} {l : List (α × β)} {v : β}
    (h : alookup k' (aerase k l) = some v) : alookup k' l = some v := by
  by_cases hk : k' = k
  · subst hk; rw [alookup_aerase_self] at h; exact absurd h (by simp)
  · rwa [alookup_aerase_ne l hk] at h

theorem cacheInv_aerase {P : Envelope → Prop} {st : CacheState} (k : CacheKey)
    (h : CacheInv P st) : CacheInv P (aerase k st) := by
  intro k' e hl v hc
  exact h k' e (alookup_aerase_some hl) v hc

theorem cacheInv_get_state {P : Envelope → Prop} {st : CacheState} (gFail : Bool) (now : Int)
    (k : CacheKey) (h : CacheInv P st) : CacheInv P (DataCache.get gFail st now k).2 := by
  unfold DataCache.get
  cases gFail with
  | true => simpa using h
  | false =>
    simp only [Bool.false_eq_true, if_false]
    cases ha : alookup k st with
    | none => simpa using h
    | some entry =>
      by_cases hexp : CACHE_EXPIRE_HOURS * 3600 < now - entry.mtime
      · simpa [hexp] using cacheInv_aerase k h
      · cases hc : entry.content with
        | some v => simpa [hexp, hc] using h
        | none => simpa [hexp, hc] using h

theorem cacheGet_fst_prop {P : Envelope → Prop} {st : CacheState} {gFail : Bool} {now : Int}
    {k : CacheKey} {v : Envelope} (h : CacheInv P st)
    (hv : (DataCache.get gFail st now k).1 = some v) : P v := by
  unfold DataCache.get at hv
  cases gFail with
  | true => simp at hv
  | false =>
    simp only [Bool.false_eq_true, if_false] at hv
    cases ha : alookup k st with
    | none => rw [ha] at hv; simp at hv
    | some entry =>
      rw [ha] at hv
      by_cases hexp : CACHE_EXPIRE_HOURS * 3600 < now - entry.mtime
      · simp [hexp] at hv
      · cases hc : entry.content with
        | none => simp [hexp, hc] at hv
        | some w =>
          simp only [hexp, if_false, hc] at hv
          obtain rfl : w = v := by simpa using hv
          exact h k entry ha w hc

theorem cacheInv_set {P : Envelope → Prop} {st : CacheState} (sFail : Bool) (now : Int)
    (k : CacheKey) {v : Envelope} (h : CacheInv P st) (hv : P v) :
    CacheInv P (DataCache.set sFail st now k v) := by
  unfold DataCache.set
  cases sFail with
  | true => simpa using h
  | false =>
    simp only [Bool.false_eq_true, if_false]
    intro k' e hl w hc
    by_cases hk : k = k'
    · subst hk
      simp only [alookup, if_pos rfl] at hl
      obtain rfl : ({ mtime := now, content := some v } : CacheEntry) = e := by simpa using hl
      simp only at hc
      obtain rfl : v = w := by simpa using hc
      exact hv
    · simp only [alookup, if_neg hk] at hl
      exact h k' e (alookup_aerase_some hl) w hc

theorem foldl_min_mem (xs : List ℚ) : ∀ x : ℚ, xs.foldl min x ∈ x :: xs := by
  induction xs with
  | nil => intro x; simp
  | cons a as ih =>
    intro x
    have h := ih (min x a)
    simp only [List.foldl_cons]
    rcases List.mem_cons.mp h with h' | h'
    · rw [h']
      rcases min_choice x a with hm | hm
      · rw [hm]; exact List.mem_cons_self _ _
      · rw [hm]; exact List.mem_cons.mpr (Or.inr (List.mem_cons_self _ _))
    · exact List.mem_cons.mpr (Or.inr (List.mem_cons.mpr (Or.inr h')))

theorem foldl_min_le (xs : List ℚ) : ∀ x y : ℚ, y ∈ x :: xs → xs.foldl min x ≤ y := by
  induction xs with
  | nil => intro x y hy; simp at hy; simp [hy]
  | cons a as ih =>
    intro x y hy
    rcases List.mem_cons.mp hy with rfl | hy'
    · calc as.foldl min (min y a) ≤ min y a := ih (min y a) (min y a) (List.mem_cons_self _ _)
        _ ≤ y := min_le_left _ _
    · rcases List.mem_cons.mp hy' with rfl | hy''
      · calc as.foldl min (min x y) ≤ min x y := ih (min x y) (min x y) (List.mem_cons_self _ _)
          _ ≤ y := min_le_right _ _
      · exact ih (min x a) y (List.mem_cons.mpr (Or.inr hy''))

/-- C4: a lookup on an entry whose mtime lies more than one hour in the past
deletes the cache file and reports the entry absent; a lookup on a fresh entry
and a cache write never delete anything (the write replaces the looked-up key's
file and leaves every other key's file untouched), so expired entries are
removed only by such a lookup. -/
theorem c4_cache_expiry :
    (∀ (st : CacheState) (now : Int) (k : CacheKey) (e : CacheEntry),
       alookup k st = some e → CACHE_EXPIRE_HOURS * 3600 < now - e.mtime →
         (DataCache.get false st now k).1 = none ∧
         (DataCache.get false st now k).2 = aerase k st ∧
         alookup k (DataCache.get false st now k).2 = none) ∧
    (∀ (st : CacheState) (now : Int) (k : CacheKey) (e : CacheEntry),
       alookup k st = some e → ¬ CACHE_EXPIRE_HOURS * 3600 < now - e.mtime →
         (DataCache.get false st now k).2 = st) ∧
    (∀ (st : CacheState) (now : Int) (k : CacheKey),
       alookup k st = none → (DataCache.get false st now k).2 = st) ∧
    (∀ (st : CacheState) (now : Int) (k k' : CacheKey) (v : Envelope), k' ≠ k →
       alookup k' (DataCache.set false st now k v) = alookup k' st) ∧
    (∀ (st : CacheState) (now : Int) (k : CacheKey) (v : Envelope),
       alookup k (DataCache.set false st now k v) =
         some { mtime := now, content := some v }) := by
  refine ⟨?_, ?_, ?_, ?_, ?_⟩
  · intro st now k e he hexp
    unfold DataCache.get
    rw [he]
    simp [hexp, alookup_aerase_self]
  · intro st now k e he hexp
    unfold DataCache.get
    rw [he]
    cases hc : e.content <;> simp [hexp, hc]
  · intro st now k he
    unfold DataCache.get
    rw [he]
    simp
  · intro st now k k' v hk
    unfold DataCache.set
    simp only [Bool.false_eq_true, if_false, alookup]
    rw [if_neg (fun hh : k = k' => hk hh.symm), alookup_aerase_ne st hk]
  · intro st now k v
    unfold DataCache.set
    simp [alookup]

/-- C4 witness: a concrete lookup 25 hours after the write deletes the file. -/
theorem c4_cache_expiry_witness :
    (DataCache.get false demoStBad 90000 demoKey).1 = none ∧
    (DataCache.get false demoStBad 90000 demoKey).2 = aerase demoKey demoStBad ∧
    alookup demoKey (DataCache.get false demoStBad 90000 demoKey).2 = none :=
  c4_cache_expiry.1 demoStBad 90000 demoKey demoEntryBad (by decide) (by decide)

/-- C9: a failing lookup (OS error) returns absent without touching the state,
a failing write is swallowed leaving the state unchanged, a fresh but
undecodable cache file also makes the lookup return absent without raising,
and a write failure never alters the envelope (or the provider-call decision)
that the stock operation returns. -/
theorem c9_cache_errors :
    (∀ (st : CacheState) (now : Int) (k : CacheKey),
       DataCache.get true st now k = (none, st)) ∧
    (∀ (st : CacheState) (now : Int) (k : CacheKey) (v : Envelope),
       DataCache.set true st now k v = st) ∧
    (∀ (st : CacheState) (now : Int) (k : CacheKey) (m : Int),
       alookup k st = some { mtime := m, content := none } →
       ¬ CACHE_EXPIRE_HOURS * 3600 < now - m →
       DataCache.get false st now k = (none, st)) ∧
    (∀ (gFail : Bool) (st : CacheState) (now : Int) (df : RawFrame) (symbol : String)
       (sd ed : Option Int),
       (get_stock_data gFail true st now df symbol sd ed).envelope =
         (get_stock_data gFail false st now df symbol sd ed).envelope ∧
       (get_stock_data gFail true st now df symbol sd ed).providerCalled =
         (get_stock_data gFail false st now df symbol sd ed).providerCalled) := by
  refine ⟨?_, ?_, ?_, ?_⟩
  · intro st now k; rfl
  · intro st now k v; rfl
  · intro st now k m he hexp
    unfold DataCache.get
    rw [he]
    simp [hexp]
  · intro gFail st now df symbol sd ed
    unfold get_stock_data cached_fetch
    cases hg : (DataCache.get gFail st now (stockKey now symbol sd ed)).1 <;> simp [hg]

/-- C9 witness: a concrete fresh but undecodable entry is reported absent
without touching the state. -/
theorem c9_cache_errors_witness :
    DataCache.get false demoStBad 1000 demoKey = (none, demoStBad) :=
  c9_cache_errors.2.2.1 demoStBad 1000 demoKey 0 (by decide) (by decide)

/-- C1 (evaluating the code at the failing input): a `kline` request for an
unrecognized symbol under the `daily` period hits the branchless end of the
`if/elif` chain of `get_kline_data`, so the operation returns Python `None`
(the CLI then prints `null`) instead of any `success=false` envelope, whatever
the abstracted sub-operations would return. -/
theorem c1_kline_unknown_daily_none :
    ∀ minuteRes weeklyRes monthlyRes stockRes indexRes : Envelope,
      get_kline_data "ABC123" "daily" minuteRes weeklyRes monthlyRes stockRes indexRes =
        none := by
  intro minuteRes weeklyRes monthlyRes stockRes indexRes
  rfl

/-- C2: `600000` classifies as `stock`, `000001.SH` as `index`, `ABC123` as
`unknown`; and every symbol that is neither a mapped index code nor a 6-digit
ASCII-numeric code starting with `00`/`30`/`60` classifies as `unknown`, upon
which the façade returns a `success=false` envelope with `type="unknown"`. -/
theorem c2_symbol_classification :
    identify_symbol_type "600000" = "stock" ∧
    identify_symbol_type "000001.SH" = "index" ∧
    identify_symbol_type "ABC123" = "unknown" ∧
    ∀ symbol : String, isIndexCode symbol = false →
      ¬ (symbol.length = 6 ∧ strIsDigits symbol = true ∧
         (strBegins symbol "00" = true ∨ strBegins symbol "30" = true ∨
          strBegins symbol "60" = true)) →
      identify_symbol_type symbol = "unknown" ∧
      ∀ stockRes indexRes : Envelope,
        (get_financial_data symbol stockRes indexRes).success = false ∧
        (get_financial_data symbol stockRes indexRes).type_ = "unknown" := by
  refine ⟨by decide, by decide, by decide, ?_⟩
  intro symbol hidx hpat
  have hu : identify_symbol_type symbol = "unknown" := by
    unfold identify_symbol_type
    rw [if_neg (by simp [hidx]), if_neg hpat]
  refine ⟨hu, ?_⟩
  intro stockRes indexRes
  unfold get_financial_data
  rw [hu, if_neg (by decide), if_neg (by decide)]
  exact ⟨rfl, rfl⟩

/-- C2 witness: the general unknown-symbol clause applied at `XYZ`. -/
theorem c2_symbol_classification_witness :
    identify_symbol_type "XYZ" = "unknown" ∧
    (get_financial_data "XYZ" demoEnvelope demoEnvelope).success = false ∧
    (get_financial_data "XYZ" demoEnvelope demoEnvelope).type_ = "unknown" := by
  have h := c2_symbol_classification.2.2.2 "XYZ" (by decide) (by decide)
  exact ⟨h.1, (h.2 demoEnvelope demoEnvelope).1, (h.2 demoEnvelope demoEnvelope).2⟩

theorem validate_range_bounds (now : Int) (sd ed : Option Int) :
    (validate_date_range now sd ed).2 ≤ dayOf now ∧
    (validate_date_range now sd ed).2 - (validate_date_range now sd ed).1 ≤ 730 := by
  rcases sd with _ | s <;> rcases ed with _ | e <;>
    simp only [validate_date_range, dayOf] <;>
    constructor <;> omega

/-- C5 counterexample: a minute-period kline query forwards the raw requested
range — here 9043 days wide and ending 300 days after the current date — to
the provider, with no clamping at all. -/
theorem c5_counterexample :
    kline_provider_range (19700 * 86400 + 1000) "600000" "1min" (some 10957) (some 20000) =
      some (10957, 20000) ∧
    (20000 : Int) - 10957 > 730 ∧
    dayOf (19700 * 86400 + 1000) < 20000 := by
  exact ⟨by decide, by decide, by decide⟩

/-- C5 amended: every range produced by `_validate_date_range` — the range the
provider sees on the daily, weekly, monthly and defaulted paths — spans at
most 730 days and never ends past the current date, hence so does the provider
range of every non-minute kline query; minute-period queries forward the
requested range unclamped. -/
theorem c5_range_clamped :
    (∀ (now : Int) (sd ed : Option Int),
       (validate_date_range now sd ed).2 ≤ dayOf now ∧
       (validate_date_range now sd ed).2 - (validate_date_range now sd ed).1 ≤ 730) ∧
    ∀ (now : Int) (symbol period : String) (sd ed : Option Int) (s e : Int),
      isMinutePeriod period = false →
      kline_provider_range now symbol period sd ed = some (s, e) →
      e ≤ dayOf now ∧ e - s ≤ 730 := by
  refine ⟨validate_range_bounds, ?_⟩
  intro now symbol period sd ed s e hmin hr
  unfold kline_provider_range at hr
  rw [hmin] at hr
  simp only [Bool.false_eq_true, if_false] at hr
  by_cases hsym : identify_symbol_type symbol = "stock" ∨ identify_symbol_type symbol = "index"
  · rw [if_pos hsym] at hr
    have h := Option.some_inj.mp hr
    have hb := validate_range_bounds now (some (kline_default_dates now period sd ed).1)
      (some (kline_default_dates now period sd ed).2)
    rw [h] at hb
    simpa using hb
  · rw [if_neg hsym] at hr
    exact absurd hr (by simp)

/-- C5 witness: a concrete daily query satisfies the clamping bounds. -/
theorem c5_range_clamped_witness :
    (19950 : Int) ≤ dayOf (20000 * 86400) ∧ (19950 : Int) - 19900 ≤ 730 :=
  c5_range_clamped.2 (20000 * 86400) "600000" "daily" (some 19900) (some 19950) 19900 19950
    (by decide) (by decide)

theorem cached_fetch_hit {gFail sFail : Bool} {st : CacheState} {now : Int} {key : CacheKey}
    {res v : Envelope} (hg : (DataCache.get gFail st now key).1 = some v) :
    cached_fetch gFail sFail st now key res =
      { envelope := v, cache := (DataCache.get gFail st now key).2, providerCalled := false } := by
  simp only [cached_fetch, hg]

theorem cached_fetch_miss {gFail sFail : Bool} {st : CacheState} {now : Int} {key : CacheKey}
    {res : Envelope} (hg : (DataCache.get gFail st now key).1 = none) :
    cached_fetch gFail sFail st now key res =
      { envelope := res
        cache := if res.success then DataCache.set sFail (DataCache.get gFail st now key).2 now key res
                 else (DataCache.get gFail st now key).2
        providerCalled := true } := by
  simp only [cached_fetch, hg]

theorem cacheGet_after_set (st : CacheState) (now1 now2 : Int) (k : CacheKey) (v : Envelope)
    (hfresh : ¬ CACHE_EXPIRE_HOURS * 3600 < now2 - now1) :
    DataCache.get false (DataCache.set false st now1 k v) now2 k =
      (some v, DataCache.set false st now1 k v) := by
  unfold DataCache.set DataCache.get
  simp only [Bool.false_eq_true, if_false, alookup, if_pos rfl]
  simp [hfresh]

/-- C8: for a normalized bar list containing a strictly positive low, the
summary is produced (no `ValueError`) and its `minPrice` is `round2` of a
value that lies in the positive-low list and bounds it from below — i.e. the
minimum over exactly the strictly positive lows, bars with `low ≤ 0`
excluded.  Both `_normalize_data_format` and `_get_minute_data` build their
summaries with this shared block (`summaryOf`). -/
theorem c8_min_price (l : List Bar) (b : Bar) (hb : b ∈ l) (hpos : 0 < b.low) :
    ∃ (s : Summary) (m : ℚ), summaryOf l = Except.ok s ∧ s.minPrice = round2 m ∧
      m ∈ posLows l ∧ ∀ x ∈ posLows l, m ≤ x := by
  cases l with
  | nil => simp at hb
  | cons c cs =>
    have hmem : b.low ∈ posLows (c :: cs) := by
      unfold posLows
      exact List.mem_map.mpr ⟨b, List.mem_filter.mpr ⟨hb, by simp [hpos]⟩, rfl⟩
    cases hl : posLows (c :: cs) with
    | nil => rw [hl] at hmem; simp at hmem
    | cons x xs =>
      have hminpos : minPos (posLows (c :: cs)) = Except.ok (xs.foldl min x) := by
        rw [hl]; rfl
      have hsum : ∃ s : Summary, summaryOf (c :: cs) = Except.ok s ∧
          s.minPrice = round2 (xs.foldl min x) := by
        simp only [summaryOf, hminpos]
        exact ⟨_, rfl, rfl⟩
      obtain ⟨s, hs1, hs2⟩ := hsum
      refine ⟨s, xs.foldl min x, hs1, hs2, ?_, ?_⟩
      · exact foldl_min_mem xs x
      · intro y hy; exact foldl_min_le xs x y hy

/-- C8 witness: the theorem applied to a concrete two-bar list whose second
bar has a non-positive low. -/
theorem c8_min_price_witness :
    ∃ (s : Summary) (m : ℚ), summaryOf demoBars = Except.ok s ∧ s.minPrice = round2 m ∧
      m ∈ posLows demoBars ∧ ∀ x ∈ posLows demoBars, m ≤ x :=
  c8_min_price demoBars demoBar1 (by decide) (by decide)

theorem cacheInv_nil (P : Envelope → Prop) : CacheInv P [] := by
  intro k e h v hv
  simp [alookup] at h

theorem envCountOk_empty (symbol symbolType message : String) :
    EnvCountOk (create_empty_response symbol symbolType message) := rfl

theorem envCountOk_normalize (df : RawFrame) (symbol symbolType : String) :
    EnvCountOk (normalize_data_format df symbol symbolType) := by
  unfold normalize_data_format
  split_ifs with h1 h2
  any_goals exact envCountOk_empty _ _ _
  all_goals
    dsimp only
    cases hs : summaryOf (barsOf df) with
    | error e => simp only [hs]; exact envCountOk_empty _ _ _
    | ok summ => simp only [hs]; rfl

theorem envCountOk_minute_fresh (provider : Except String RawFrame) (symbol : String) :
    EnvCountOk (minute_fresh_result provider symbol) := by
  cases provider with
  | error e => exact envCountOk_empty _ _ _
  | ok df =>
    unfold minute_fresh_result
    dsimp only
    split_ifs with h
    · exact envCountOk_empty _ _ _
    all_goals
      cases hs : summaryOf (sortBarsByDate (df.rows.map (minuteToBar df))) with
      | error e => simp only [hs]; exact envCountOk_empty _ _ _
      | ok summ => simp only [hs]; rfl

theorem cached_fetch_envelope_prop {P : Envelope → Prop} {st : CacheState}
    (gFail sFail : Bool) (now : Int) (key : CacheKey) {res : Envelope}
    (hst : CacheInv P st) (hres : P res) :
    P (cached_fetch gFail sFail st now key res).envelope := by
  cases hg : (DataCache.get gFail st now key).1 with
  | some v => rw [cached_fetch_hit hg]; exact cacheGet_fst_prop hst hg
  | none => rw [cached_fetch_miss hg]; exact hres

theorem cached_fetch_cacheInv {P : Envelope → Prop} {st : CacheState}
    (gFail sFail : Bool) (now : Int) (key : CacheKey) (res : Envelope)
    (hst : CacheInv P st) (hres : res.success = true → P res) :
    CacheInv P (cached_fetch gFail sFail st now key res).cache := by
  cases hg : (DataCache.get gFail st now key).1 with
  | some v =>
    rw [cached_fetch_hit hg]
    exact cacheInv_get_state gFail now key hst
  | none =>
    rw [cached_fetch_miss hg]
    dsimp only
    by_cases hsucc : res.success = true
    · rw [if_pos hsucc]
      exact cacheInv_set sFail now key (cacheInv_get_state gFail now key hst) (hres hsucc)
    · rw [if_neg hsucc]
      exact cacheInv_get_state gFail now key hst

/-- C6: `dataCount` equals the length of `data` in every envelope the
historical operations construct (`_normalize_data_format`,
`_create_empty_response`, the minute fresh fetch), and the stock and minute
operations both return an envelope with this property and preserve it for
every envelope stored in the cache, whenever every cached envelope already had
it. -/
theorem c6_data_count :
    (∀ (df : RawFrame) (symbol symbolType : String),
       EnvCountOk (normalize_data_format df symbol symbolType)) ∧
    (∀ symbol symbolType message : String,
       EnvCountOk (create_empty_response symbol symbolType message)) ∧
    (∀ (gFail sFail : Bool) (st : CacheState) (now : Int) (df : RawFrame) (symbol : String)
       (sd ed : Option Int), CacheInv EnvCountOk st →
       EnvCountOk (get_stock_data gFail sFail st now df symbol sd ed).envelope ∧
       CacheInv EnvCountOk (get_stock_data gFail sFail st now df symbol sd ed).cache) ∧
    (∀ (gFail sFail : Bool) (st : CacheState) (now : Int) (p : Except String RawFrame)
       (symbol period : String) (sd ed : Int), CacheInv EnvCountOk st →
       EnvCountOk (get_minute_data gFail sFail st now p symbol period sd ed).envelope ∧
       CacheInv EnvCountOk (get_minute_data gFail sFail st now p symbol period sd ed).cache) := by
  refine ⟨envCountOk_normalize, envCountOk_empty, ?_, ?_⟩
  · intro gFail sFail st now df symbol sd ed hst
    exact ⟨cached_fetch_envelope_prop gFail sFail now (stockKey now symbol sd ed) hst
        (envCountOk_normalize df symbol "stock"),
      cached_fetch_cacheInv gFail sFail now (stockKey now symbol sd ed) _ hst
        (fun _ => envCountOk_normalize df symbol "stock")⟩
  · intro gFail sFail st now p symbol period sd ed hst
    exact ⟨cached_fetch_envelope_prop gFail sFail now (minuteKey symbol period sd ed) hst
        (envCountOk_minute_fresh p symbol),
      cached_fetch_cacheInv gFail sFail now (minuteKey symbol period sd ed) _ hst
        (fun _ => envCountOk_minute_fresh p symbol)⟩

/-- C6 witness: a concrete fresh stock fetch returns a count-correct envelope
and leaves a count-correct cache. -/
theorem c6_data_count_witness :
    EnvCountOk (get_stock_data false false [] 0 demoFrame "600000" (some 100) (some 200)).envelope ∧
    CacheInv EnvCountOk
      (get_stock_data false false [] 0 demoFrame "600000" (some 100) (some 200)).cache :=
  c6_data_count.2.2.1 false false [] 0 demoFrame "600000" (some 100) (some 200)
    (cacheInv_nil EnvCountOk)

theorem rtInv_cons {st : RtState} {k : String} {r : RtEnvelope} {lu : List (String × Int)}
    (hst : RtInv st) (hr : r.success = true) :
    RtInv { cache := (k, r) :: st.cache, last_update := lu } := by
  intro k' v h
  simp only [alookup] at h
  split_ifs at h with hk
  · cases h; exact hr
  · exact hst k' v h

theorem rt_cached_rtInv {st : RtState} {now : Int} {key : String} {fetch : RtEnvelope × RtState}
    (hst : RtInv st) (hf : RtInv fetch.2) : RtInv (rt_cached st now key fetch).2 := by
  unfold rt_cached
  cases h1 : alookup key st.cache with
  | none => exact hf
  | some v =>
    cases h2 : alookup key st.last_update with
    | none => exact hf
    | some t =>
      dsimp only
      split_ifs with ht
      · exact hst
      · exact hf

theorem rt_cached_failure_eq {st : RtState} {now : Int} {key : String}
    {fetch : RtEnvelope × RtState} (hst : RtInv st)
    (hf : (rt_cached st now key fetch).1.success = false) :
    rt_cached st now key fetch = fetch := by
  cases h1 : alookup key st.cache with
  | none => unfold rt_cached; rw [h1]
  | some v =>
    cases h2 : alookup key st.last_update with
    | none => unfold rt_cached; rw [h1, h2]
    | some t =>
      unfold rt_cached at hf ⊢
      rw [h1, h2] at hf ⊢
      dsimp only at hf ⊢
      split_ifs at hf ⊢ with ht
      · have hv : v.success = false := hf
        rw [hst key v h1] at hv
        exact absurd hv (by simp)
      · rfl

theorem rt_stock_fetch_rtInv (st : RtState) (now : Int)
    (provider : Except String (Option RtRow)) (symbol : String) (hst : RtInv st) :
    RtInv (rt_stock_fetch st now provider symbol).2 := by
  cases provider with
  | error e => exact hst
  | ok o =>
    cases o with
    | none => exact hst
    | some row => exact rtInv_cons hst rfl

theorem rt_stock_fetch_failure (st : RtState) (now : Int)
    (provider : Except String (Option RtRow)) (symbol : String)
    (hf : (rt_stock_fetch st now provider symbol).1.success = false) :
    (rt_stock_fetch st now provider symbol).1.data = none ∧
    (rt_stock_fetch st now provider symbol).2 = st := by
  cases provider with
  | error e => exact ⟨rfl, rfl⟩
  | ok o =>
    cases o with
    | none => exact ⟨rfl, rfl⟩
    | some row => simp [rt_stock_fetch] at hf

theorem rt_index_fetch_rtInv (st : RtState) (now : Int)
    (provider : Except String (Option RtRow)) (symbol : String) (hst : RtInv st) :
    RtInv (rt_index_fetch st now provider symbol).2 := by
  unfold rt_index_fetch
  split_ifs with h
  · exact hst
  · cases provider with
    | error e => exact hst
    | ok o =>
      cases o with
      | none => exact hst
      | some row => exact rtInv_cons hst rfl

theorem rt_index_fetch_failure (st : RtState) (now : Int)
    (provider : Except String (Option RtRow)) (symbol : String)
    (hf : (rt_index_fetch st now provider symbol).1.success = false) :
    (rt_index_fetch st now provider symbol).1.data = none ∧
    (rt_index_fetch st now provider symbol).2 = st := by
  unfold rt_index_fetch at hf ⊢
  split_ifs at hf ⊢ with h
  · exact ⟨rfl, rfl⟩
  · cases provider with
    | error e => exact ⟨rfl, rfl⟩
    | ok o =>
      cases o with
      | none => exact ⟨rfl, rfl⟩
      | some row => simp at hf

theorem empty_response_failure (symbol symbolType message : String) :
    (create_empty_response symbol symbolType message).success = false ∧
    (create_empty_response symbol symbolType message).data = [] := ⟨rfl, rfl⟩

theorem normalize_failure_data (df : RawFrame) (symbol symbolType : String)
    (hf : (normalize_data_format df symbol symbolType).success = false) :
    (normalize_data_format df symbol symbolType).data = [] := by
  unfold normalize_data_format at hf ⊢
  split_ifs at hf ⊢ with h1 h2
  any_goals rfl
  all_goals
    dsimp only at hf ⊢
    cases hs : summaryOf (barsOf df) with
    | error e => simp only [hs]; rfl
    | ok summ => rw [hs] at hf; simp at hf

theorem minute_fresh_failure_data (provider : Except String RawFrame) (symbol : String)
    (hf : (minute_fresh_result provider symbol).success = false) :
    (minute_fresh_result provider symbol).data = [] := by
  cases provider with
  | error e => rfl
  | ok df =>
    unfold minute_fresh_result at hf ⊢
    dsimp only at hf ⊢
    split_ifs at hf ⊢ with h
    · rfl
    all_goals
      cases hs : summaryOf (sortBarsByDate (df.rows.map (minuteToBar df))) with
      | error e => simp only [hs]; rfl
      | ok summ => rw [hs] at hf; simp at hf

theorem cached_fetch_failure_data {st : CacheState} (gFail sFail : Bool) (now : Int)
    (key : CacheKey) {res : Envelope}
    (hst : CacheInv (fun v => v.success = true) st)
    (hres : res.success = false → res.data = [])
    (hf : (cached_fetch gFail sFail st now key res).envelope.success = false) :
    (cached_fetch gFail sFail st now key res).envelope.data = [] := by
  cases hg : (DataCache.get gFail st now key).1 with
  | some v =>
    rw [cached_fetch_hit hg] at hf
    have hv : v.success = false := hf
    rw [cacheGet_fst_prop hst hg] at hv
    exact absurd hv (by simp)
  | none =>
    rw [cached_fetch_miss hg] at hf ⊢
    exact hres hf

/-- C7 counterexample: the index-realtime failure envelope for an unsupported
symbol has `success=false` but carries NO `data` field at all (the dict lacks
the key, modelled as `none`), not an empty list. -/
theorem c7_counterexample :
    (get_index_realtime_data demoRtEmpty 0 (Except.ok none) "ABC123").1.success = false ∧
    (get_index_realtime_data demoRtEmpty 0 (Except.ok none) "ABC123").1.data = none ∧
    (get_index_realtime_data demoRtEmpty 0 (Except.ok none) "ABC123").1.data ≠ some [] := by
  refine ⟨rfl, rfl, ?_⟩
  rw [show (get_index_realtime_data demoRtEmpty 0 (Except.ok none) "ABC123").1.data = none
    from rfl]
  simp

/-- C7 amended: an envelope with `success=false` carries `data=[]` whenever it
carries a `data` field at all — which the historical operations and the tick
operation always do — while the stock-realtime and index-realtime envelopes
never carry a `data` field (it is absent, not an empty list). -/
theorem c7_failure_data :
    (∀ (df : RawFrame) (symbol symbolType : String),
       (normalize_data_format df symbol symbolType).success = false →
       (normalize_data_format df symbol symbolType).data = []) ∧
    (∀ symbol symbolType message : String,
       (create_empty_response symbol symbolType message).success = false ∧
       (create_empty_response symbol symbolType message).data = []) ∧
    (∀ (gFail sFail : Bool) (st : CacheState) (now : Int) (df : RawFrame) (symbol : String)
       (sd ed : Option Int), CacheInv (fun v => v.success = true) st →
       (get_stock_data gFail sFail st now df symbol sd ed).envelope.success = false →
       (get_stock_data gFail sFail st now df symbol sd ed).envelope.data = []) ∧
    (∀ (gFail sFail : Bool) (st : CacheState) (now : Int) (p : Except String RawFrame)
       (symbol period : String) (sd ed : Int), CacheInv (fun v => v.success = true) st →
       (get_minute_data gFail sFail st now p symbol period sd ed).envelope.success = false →
       (get_minute_data gFail sFail st now p symbol period sd ed).envelope.data = []) ∧
    (∀ (provider : Except String (List (Int × Option ℚ × Option Int))) (symbol : String)
       (count : Nat),
       (get_realtime_tick_data provider symbol count).success = false →
       (get_realtime_tick_data provider symbol count).data = some []) ∧
    (∀ (st : RtState) (now : Int) (provider : Except String (Option RtRow)) (symbol : String),
       RtInv st → (get_realtime_data st now provider symbol).1.success = false →
       (get_realtime_data st now provider symbol).1.data = none) ∧
    (∀ (st : RtState) (now : Int) (provider : Except String (Option RtRow)) (symbol : String),
       RtInv st → (get_index_realtime_data st now provider symbol).1.success = false →
       (get_index_realtime_data st now provider symbol).1.data = none) := by
  refine ⟨normalize_failure_data, empty_response_failure, ?_, ?_, ?_, ?_, ?_⟩
  · intro gFail sFail st now df symbol sd ed hst hf
    exact cached_fetch_failure_data gFail sFail now (stockKey now symbol sd ed) hst
      (normalize_failure_data df symbol "stock") hf
  · intro gFail sFail st now p symbol period sd ed hst hf
    exact cached_fetch_failure_data gFail sFail now (minuteKey symbol period sd ed) hst
      (minute_fresh_failure_data p symbol) hf
  · intro provider symbol count hf
    cases provider with
    | error e => rfl
    | ok rows =>
      unfold get_realtime_tick_data at hf ⊢
      dsimp only at hf ⊢
      split_ifs at hf ⊢ with h
      all_goals rfl
  · intro st now provider symbol hst hf
    unfold get_realtime_data at hf ⊢
    have heq := rt_cached_failure_eq hst hf
    rw [heq]
    rw [heq] at hf
    exact (rt_stock_fetch_failure st now provider symbol hf).1
  · intro st now provider symbol hst hf
    unfold get_index_realtime_data at hf ⊢
    have heq := rt_cached_failure_eq hst hf
    rw [heq]
    rw [heq] at hf
    exact (rt_index_fetch_failure st now provider symbol hf).1

/-- C7 witness: a concrete stock-realtime miss with the symbol absent from the
spot table yields a failure envelope without a `data` field. -/
theorem c7_failure_data_witness :
    (get_realtime_data demoRtEmpty 0 (Except.ok none) "600000").1.data = none :=
  c7_failure_data.2.2.2.2.2.1 demoRtEmpty 0 (Except.ok none) "600000"
    (fun k v h => by simp [demoRtEmpty, alookup] at h) rfl

/-- C10: the disk cache and the in-memory realtime cache only ever receive
`success=true` envelopes — the stock and minute operations preserve the
all-success cache invariant (they guard the write with `result['success']`),
the realtime operations preserve it (they write only in the found-row branch),
a realtime failure leaves the in-memory cache untouched, and under that
invariant a disk-cache lookup can only produce a `success=true` envelope. -/
theorem c10_only_success_cached :
    (∀ (gFail sFail : Bool) (st : CacheState) (now : Int) (df : RawFrame) (symbol : String)
       (sd ed : Option Int), CacheInv (fun v => v.success = true) st →
       CacheInv (fun v => v.success = true)
         (get_stock_data gFail sFail st now df symbol sd ed).cache) ∧
    (∀ (gFail sFail : Bool) (st : CacheState) (now : Int) (p : Except String RawFrame)
       (symbol period : String) (sd ed : Int), CacheInv (fun v => v.success = true) st →
       CacheInv (fun v => v.success = true)
         (get_minute_data gFail sFail st now p symbol period sd ed).cache) ∧
    (∀ (gFail : Bool) (st : CacheState) (now : Int) (k : CacheKey) (v : Envelope),
       CacheInv (fun v => v.success = true) st →
       (DataCache.get gFail st now k).1 = some v → v.success = true) ∧
    (∀ (st : RtState) (now : Int) (provider : Except String (Option RtRow)) (symbol : String),
       RtInv st → RtInv (get_realtime_data st now provider symbol).2) ∧
    (∀ (st : RtState) (now : Int) (provider : Except String (Option RtRow)) (symbol : String),
       RtInv st → RtInv (get_index_realtime_data st now provider symbol).2) ∧
    (∀ (st : RtState) (now : Int) (provider : Except String (Option RtRow)) (symbol : String),
       RtInv st → (get_realtime_data st now provider symbol).1.success = false →
       (get_realtime_data st now provider symbol).2 = st) := by
  refine ⟨?_, ?_, ?_, ?_, ?_, ?_⟩
  · intro gFail sFail st now df symbol sd ed hst
    exact cached_fetch_cacheInv gFail sFail now (stockKey now symbol sd ed) _ hst (fun h => h)
  · intro gFail sFail st now p symbol period sd ed hst
    exact cached_fetch_cacheInv gFail sFail now (minuteKey symbol period sd ed) _ hst
      (fun h => h)
  · intro gFail st now k v hst hv
    exact cacheGet_fst_prop hst hv
  · intro st now provider symbol hst
    exact rt_cached_rtInv hst (rt_stock_fetch_rtInv st now provider symbol hst)
  · intro st now provider symbol hst
    exact rt_cached_rtInv hst (rt_index_fetch_rtInv st now provider symbol hst)
  · intro st now provider symbol hst hf
    unfold get_realtime_data at hf ⊢
    have heq := rt_cached_failure_eq hst hf
    rw [heq]
    rw [heq] at hf
    exact (rt_stock_fetch_failure st now provider symbol hf).2

theorem cached_fetch_second (st : CacheState) (now1 now2 : Int) (key : CacheKey)
    (res res2 : Envelope)
    (hsucc : (cached_fetch false false st now1 key res).envelope.success = true)
    (hcall : (cached_fetch false false st now1 key res).providerCalled = true)
    (hclock : now2 - now1 < 3600) :
    cached_fetch false false (cached_fetch false false st now1 key res).cache now2 key res2 =
      { envelope := (cached_fetch false false st now1 key res).envelope
        cache := (cached_fetch false false st now1 key res).cache
        providerCalled := false } := by
  cases hg : (DataCache.get false st now1 key).1 with
  | some v =>
    rw [cached_fetch_hit hg] at hcall
    exact absurd hcall (by simp)
  | none =>
    rw [cached_fetch_miss hg] at hsucc ⊢
    have hs : res.success = true := hsucc
    dsimp only
    rw [if_pos hs]
    have hget : DataCache.get false
        (DataCache.set false (DataCache.get false st now1 key).2 now1 key res) now2 key =
        (some res,
          DataCache.set false (DataCache.get false st now1 key).2 now1 key res) :=
      cacheGet_after_set _ now1 now2 key res
        (by simp only [CACHE_EXPIRE_HOURS]; omega)
    rw [cached_fetch_hit (by rw [hget])]
    rw [hget]

/-- C3 counterexample: a stock query whose requested end date lies in the
future is clamped to "today" when the cache key is formed, so the same raw
query repeated 1000 seconds later — across midnight — hashes to a different
key and triggers a fresh provider call even though the stored envelope is well
inside its one-hour TTL. -/
theorem c3_counterexample :
    (get_stock_data false false [] (19999 * 86400 + 86000) demoFrame "600000"
        (some 19990) (some 20005)).envelope.success = true ∧
    (get_stock_data false false [] (19999 * 86400 + 86000) demoFrame "600000"
        (some 19990) (some 20005)).providerCalled = true ∧
    (19999 * 86400 + 87000 : Int) - (19999 * 86400 + 86000) < 3600 ∧
    (get_stock_data false false
        (get_stock_data false false [] (19999 * 86400 + 86000) demoFrame "600000"
          (some 19990) (some 20005)).cache
        (19999 * 86400 + 87000) demoFrame "600000" (some 19990) (some 20005)).providerCalled
      = true := by
  refine ⟨by decide, by decide, by decide, by decide⟩

/-- C3 amended: a repeat of the same historical query within the one-hour TTL
of the envelope stored by a fresh successful first call returns exactly that
stored envelope, with no provider call and no cache change — PROVIDED the date
revalidation at the second call yields the same effective range as at the
first (which can fail when the clock crosses a date boundary); minute-period
queries key on the raw dates and need no such proviso. -/
theorem c3_cached_second_call :
    (∀ (st : CacheState) (now1 now2 : Int) (df df2 : RawFrame) (symbol : String)
       (sd ed : Option Int),
       (get_stock_data false false st now1 df symbol sd ed).envelope.success = true →
       (get_stock_data false false st now1 df symbol sd ed).providerCalled = true →
       validate_date_range now2 sd ed = validate_date_range now1 sd ed →
       now2 - now1 < 3600 →
       get_stock_data false false (get_stock_data false false st now1 df symbol sd ed).cache
           now2 df2 symbol sd ed =
         { envelope := (get_stock_data false false st now1 df symbol sd ed).envelope
           cache := (get_stock_data false false st now1 df symbol sd ed).cache
           providerCalled := false }) ∧
    (∀ (st : CacheState) (now1 now2 : Int) (p p2 : Except String RawFrame)
       (symbol period : String) (sd ed : Int),
       (get_minute_data false false st now1 p symbol period sd ed).envelope.success = true →
       (get_minute_data false false st now1 p symbol period sd ed).providerCalled = true →
       now2 - now1 < 3600 →
       get_minute_data false false
           (get_minute_data false false st now1 p symbol period sd ed).cache
           now2 p2 symbol period sd ed =
         { envelope := (get_minute_data false false st now1 p symbol period sd ed).envelope
           cache := (get_minute_data false false st now1 p symbol period sd ed).cache
           providerCalled := false }) := by
  constructor
  · intro st now1 now2 df df2 symbol sd ed hsucc hcall hv hclock
    unfold get_stock_data at hsucc hcall ⊢
    have hkey : stockKey now2 symbol sd ed = stockKey now1 symbol sd ed := by
      unfold stockKey; rw [hv]
    rw [hkey]
    exact cached_fetch_second st now1 now2 (stockKey now1 symbol sd ed) _ _ hsucc hcall hclock
  · intro st now1 now2 p p2 symbol period sd ed hsucc hcall hclock
    unfold get_minute_data at hsucc hcall ⊢
    exact cached_fetch_second st now1 now2 (minuteKey symbol period sd ed) _ _ hsucc hcall
      hclock

/-- C3 witness: a concrete stock query repeated 100 seconds later on the same
day serves the stored envelope with no provider call. -/
theorem c3_cached_second_call_witness :
    get_stock_data false false
        (get_stock_data false false [] (1000 * 86400) demoFrame "600000" (some 900)
          (some 950)).cache
        (1000 * 86400 + 100) demoFrame "600000" (some 900) (some 950) =
      { envelope := (get_stock_data false false [] (1000 * 86400) demoFrame "600000" (some 900)
          (some 950)).envelope
        cache := (get_stock_data false false [] (1000 * 86400) demoFrame "600000" (some 900)
          (some 950)).cache
        providerCalled := false } :=
  c3_cached_second_call.1 [] (1000 * 86400) (1000 * 86400 + 100) demoFrame demoFrame "600000"
    (some 900) (some 950) (by decide) (by decide) (by decide) (by decide)

/-- C10 witness: a concrete failed stock fetch (provider exception) leaves the
empty disk cache satisfying the all-success invariant, and a concrete realtime
failure leaves the in-memory cache untouched. -/
theorem c10_only_success_cached_witness :
    CacheInv (fun v => v.success = true)
      (get_stock_data false false [] 0
        { rows := [], hasDate := true, hasOpen := true, hasClose := true, hasHigh := true,
          hasLow := true, hasVolume := true } "600000" (some 100) (some 200)).cache ∧
    (get_realtime_data demoRtEmpty 0 (Except.error "boom") "600000").2 = demoRtEmpty :=
  ⟨c10_only_success_cached.1 false false [] 0
      { rows := [], hasDate := true, hasOpen := true, hasClose := true, hasHigh := true,
        hasLow := true, hasVolume := true } "600000" (some 100) (some 200)
      (cacheInv_nil _),
   c10_only_success_cached.2.2.2.2.2 demoRtEmpty 0 (Except.error "boom") "600000"
      (fun k v h => by simp [demoRtEmpty, alookup] at h) rfl⟩

